import Mathlib

/-!
Shallow embedding of the WarpDrive schema field model
(`packages/core-types` schema fields module): the thirteen field-kind
types, the `FieldSchema` union, `ResourceSchema`, and the slices of the
resolution contracts (hash computation, polymorphic discrimination,
schema-array identity keying) that the specification describes.

TypeScript optional properties (`p?: T`) are embedded as `Option T`;
`string | null` becomes `Option String` (with `none` for `null`);
`p?: string | null` becomes `Option (Option String)` (outer `none` for
absent, `some none` for explicit `null`).
-/

/-- Modelled from the spec: the repository imports `PrimitiveValue` from a
`json/raw` module that is not part of these sources. Primitive JSON
values: strings, integers, booleans and null. -/
inductive PrimitiveValue where
  | str (s : String)
  | num (n : Int)
  | bool (b : Bool)
  | null
  deriving DecidableEq, Repr

/-- Modelled from the spec: structured JSON values as used for raw cache
data, from the missing `json/raw` module. -/
inductive JsonValue where
  | prim (p : PrimitiveValue)
  | arr (elements : List JsonValue)
  | obj (members : List (String × JsonValue))
  deriving Repr

/-- Modelled from the spec: `ObjectValue` from the missing `json/raw`
module, a JSON object given as a list of key/value members. -/
abbrev ObjectValue : Type := List (String × JsonValue)

/-- Look up a key in a raw JSON object, returning the first member whose
key matches. -/
def lookupObj (o : ObjectValue) (k : String) : Option JsonValue :=
  (o.find? (fun m => m.1 == k)).map (fun m => m.2)

/-- `GenericField` (kind `field`): a primitive value field with an
optional transform name and optional transform options. -/
structure GenericField where
  name : String
  type : Option String
  options : Option ObjectValue

/-- `IdentityField` (kind `@id`): the field serving as the primary key
of the resource. -/
structure IdentityField where
  name : String

/-- `HashField` (kind `@hash`): the computed identity key of a
schema-object. `name` may be null (UI-invisible); `type`, the name of
the hash function, is mandatory. -/
structure HashField where
  name : Option String
  type : String
  options : Option ObjectValue

/-- Options of `LocalField`: an optional default value. -/
structure LocalOptions where
  defaultValue : Option PrimitiveValue

/-- `LocalField` (kind `@local`): record-instance-only state, not cached
and not sent to the server. -/
structure LocalField where
  name : String
  type : Option String
  options : Option LocalOptions

/-- `ObjectField` (kind `object`): an untyped object value with an
optional whole-object transform. -/
structure ObjectField where
  name : String
  type : Option String
  options : Option ObjectValue

/-- Options of `SchemaObjectField`: a polymorphic flag and, when
polymorphic, the key on the raw data carrying the resource type. -/
structure SchemaObjectOptions where
  polymorphic : Option Bool
  type : Option String

/-- `SchemaObjectField` (kind `schema-object`): a structured object
described by the named (non-resource) schema in `type`. -/
structure SchemaObjectField where
  name : String
  type : String
  options : Option SchemaObjectOptions

/-- `ArrayField` (kind `array`): an array of primitive values with an
optional per-element transform. -/
structure ArrayField where
  name : String
  type : Option String
  options : Option ObjectValue

/-- Options of `SchemaArrayField`: the identity `key` strategy (a string,
one of `@identity`, `@index`, `@hash`, or a field name), a polymorphic
flag, and the discriminator key. -/
structure SchemaArrayOptions where
  key : Option String
  polymorphic : Option Bool
  type : Option String

/-- `SchemaArrayField` (kind `schema-array`): an array of structured
objects described by the named schema in `type`. -/
structure SchemaArrayField where
  name : String
  type : String
  options : Option SchemaArrayOptions

/-- `DerivedField` (kind `derived`): a read-only computed field; `type`
names the derivation and is mandatory. -/
structure DerivedField where
  name : String
  type : String
  options : Option ObjectValue

/-- Options of `ResourceField`: `async`, `inverse` (`string | null`),
`as`, and `polymorphic`; all optional. -/
structure ResourceOptions where
  async : Option Bool
  inverse : Option (Option String)
  as : Option String
  polymorphic : Option Bool

/-- `ResourceField` (kind `resource`): a reference to another resource
of the type (or trait) named in `type`. -/
structure ResourceField where
  name : String
  type : String
  options : Option ResourceOptions

/-- Options of `CollectionField`: same shape as `ResourceOptions`. -/
structure CollectionOptions where
  async : Option Bool
  inverse : Option (Option String)
  as : Option String
  polymorphic : Option Bool

/-- `CollectionField` (kind `collection`): a reference to a collection
of other resources. -/
structure CollectionField where
  name : String
  type : String
  options : Option CollectionOptions

/-- `LegacyAttributeField` (kind `attribute`): legacy primitive field;
`type` is `string | null` and optional. -/
structure LegacyAttributeField where
  name : String
  type : Option (Option String)
  options : Option ObjectValue

/-- The TypeScript literal type `false`: the only value the
`resetOnRemoteUpdate` option can carry when present. -/
inductive FalseLiteral where
  | mk
  deriving DecidableEq, Repr

/-- The boolean value a `FalseLiteral` denotes: always `false`. -/
def FalseLiteral.toBool : FalseLiteral → Bool := fun _ => false

/-- Options of `LegacyBelongsToField`: mandatory `async` and `inverse`
(`string | null`), optional `as`, `polymorphic`, and
`resetOnRemoteUpdate` whose declared type is the literal `false`. -/
structure LegacyBelongsToOptions where
  async : Bool
  inverse : Option String
  as : Option String
  polymorphic : Option Bool
  resetOnRemoteUpdate : Option FalseLiteral
  deriving DecidableEq

/-- `LegacyBelongsToField` (kind `belongsTo`): legacy single-resource
relationship; options are mandatory. -/
structure LegacyBelongsToField where
  name : String
  type : String
  options : LegacyBelongsToOptions

/-- Options of `LegacyHasManyField`: same shape as
`LegacyBelongsToOptions`. -/
structure LegacyHasManyOptions where
  async : Bool
  inverse : Option String
  as : Option String
  polymorphic : Option Bool
  resetOnRemoteUpdate : Option FalseLiteral
  deriving DecidableEq

/-- `LegacyHasManyField` (kind `hasMany`): legacy many-resource
relationship; options are mandatory. -/
structure LegacyHasManyField where
  name : String
  type : String
  options : LegacyHasManyOptions

/-- The union of admissible alias targets carried in
`AliasField.options`: every field-kind type of the `FieldSchema` union
except `AliasField` itself, `LocalField` and `DerivedField` (and the
identity kinds `@id`/`@hash`, which are not admissible either). This
mirrors the TypeScript union literally, constructor by constructor. -/
inductive AliasTarget where
  | generic (f : GenericField)
  | object (f : ObjectField)
  | schemaObject (f : SchemaObjectField)
  | array (f : ArrayField)
  | schemaArray (f : SchemaArrayField)
  | resource (f : ResourceField)
  | collection (f : CollectionField)
  | attribute (f : LegacyAttributeField)
  | belongsTo (f : LegacyBelongsToField)
  | hasMany (f : LegacyHasManyField)

/-- `AliasField` (kind `alias`): renames a cache key. Its `type`
property is the TypeScript literal `null` (aliases never name a
transform of their own), so the model carries no transform slot;
`options` holds the full target field definition. -/
structure AliasField where
  name : String
  options : AliasTarget

/-- `FieldSchema`: the closed tagged union of the thirteen field-kind
types, mirroring the TypeScript union member by member. `IdentityField`
and `HashField` are not members; they live only in the
`ResourceSchema.identity` slot. -/
inductive FieldSchema where
  | generic (f : GenericField)
  | aliased (f : AliasField)
  | localField (f : LocalField)
  | object (f : ObjectField)
  | schemaObject (f : SchemaObjectField)
  | array (f : ArrayField)
  | schemaArray (f : SchemaArrayField)
  | derived (f : DerivedField)
  | resource (f : ResourceField)
  | collection (f : CollectionField)
  | attribute (f : LegacyAttributeField)
  | belongsTo (f : LegacyBelongsToField)
  | hasMany (f : LegacyHasManyField)

/-- The `kind` tag of a field, as the literal string of the source. -/
def FieldSchema.kindOf : FieldSchema → String
  | .generic _ => "field"
  | .aliased _ => "alias"
  | .localField _ => "@local"
  | .object _ => "object"
  | .schemaObject _ => "schema-object"
  | .array _ => "array"
  | .schemaArray _ => "schema-array"
  | .derived _ => "derived"
  | .resource _ => "resource"
  | .collection _ => "collection"
  | .attribute _ => "attribute"
  | .belongsTo _ => "belongsTo"
  | .hasMany _ => "hasMany"

/-- The `name` property shared by every member of the union; on every
member its declared type is `string`. -/
def FieldSchema.nameOf : FieldSchema → String
  | .generic f => f.name
  | .aliased f => f.name
  | .localField f => f.name
  | .object f => f.name
  | .schemaObject f => f.name
  | .array f => f.name
  | .schemaArray f => f.name
  | .derived f => f.name
  | .resource f => f.name
  | .collection f => f.name
  | .attribute f => f.name
  | .belongsTo f => f.name
  | .hasMany f => f.name

/-- The `type` property of a field viewed uniformly: `none` when the
property is absent or null. On an `alias` it is the literal `null`. -/
def FieldSchema.typeOf : FieldSchema → Option String
  | .generic f => f.type
  | .aliased _ => none
  | .localField f => f.type
  | .object f => f.type
  | .schemaObject f => some f.type
  | .array f => f.type
  | .schemaArray f => some f.type
  | .derived f => some f.type
  | .resource f => some f.type
  | .collection f => some f.type
  | .attribute f => f.type.bind id
  | .belongsTo f => some f.type
  | .hasMany f => some f.type

/-- The `kind` tag of an alias target, mirroring `FieldSchema.kindOf`
on the constructors the target union admits. -/
def AliasTarget.kindOf : AliasTarget → String
  | .generic _ => "field"
  | .object _ => "object"
  | .schemaObject _ => "schema-object"
  | .array _ => "array"
  | .schemaArray _ => "schema-array"
  | .resource _ => "resource"
  | .collection _ => "collection"
  | .attribute _ => "attribute"
  | .belongsTo _ => "belongsTo"
  | .hasMany _ => "hasMany"

/-- Re-embed an alias target into the full field union: each target
constructor maps to the corresponding `FieldSchema` constructor. -/
def AliasTarget.toFieldSchema : AliasTarget → FieldSchema
  | .generic f => .generic f
  | .object f => .object f
  | .schemaObject f => .schemaObject f
  | .array f => .array f
  | .schemaArray f => .schemaArray f
  | .resource f => .resource f
  | .collection f => .collection f
  | .attribute f => .attribute f
  | .belongsTo f => .belongsTo f
  | .hasMany f => .hasMany f

/-- Whether a field of the union is an alias. -/
def FieldSchema.isAlias : FieldSchema → Bool
  | .aliased _ => true
  | _ => false

/-- The identity slot of a `ResourceSchema`: `IdentityField | HashField`
(the surrounding slot is additionally nullable). -/
inductive ResourceIdentity where
  | id (f : IdentityField)
  | hash (f : HashField)

/-- `ResourceSchema`: the whole-resource schema. `identity` is
`IdentityField | HashField | null`; `fields` is the ordered sequence of
`FieldSchema` members. -/
structure ResourceSchema where
  legacy : Option Bool
  identity : Option ResourceIdentity
  type : String
  traits : Option (List String)
  fields : List FieldSchema

/-- Whether a field is identity-bearing, i.e. of kind `@id` or `@hash`. -/
def FieldSchema.isIdentityBearing (f : FieldSchema) : Bool :=
  f.kindOf == "@id" || f.kindOf == "@hash"

/-- The number of identity-bearing fields a `ResourceSchema` value
carries: one for a non-null `identity` slot plus however many fields of
kind `@id` or `@hash` occur in `fields`. -/
def ResourceSchema.identityBearingCount (s : ResourceSchema) : Nat :=
  (if s.identity.isSome then 1 else 0) +
    (s.fields.filter FieldSchema.isIdentityBearing).length

/-- Modelled from the spec: the hash-resolution step of the Field
Resolver is not in these sources (only the `HashField` type is). Per the
spec, `@hash` invokes the transform named in the field's mandatory
`type` with only the record's raw cache data — the transform's contract
takes raw cache data and returns a primitive key, so no record handle
exists in its signature. -/
def resolveHashKey (transforms : String → Option (ObjectValue → PrimitiveValue))
    (hf : HashField) (raw : ObjectValue) : Option PrimitiveValue :=
  (transforms hf.type).map (fun h => h raw)

/-- Modelled from the spec: the hash step as observed by the cache — it
returns the computed identity key alongside the raw cache data, which it
never writes back. -/
def resolveHashStep (transforms : String → Option (ObjectValue → PrimitiveValue))
    (hf : HashField) (raw : ObjectValue) : Option PrimitiveValue × ObjectValue :=
  (resolveHashKey transforms hf raw, raw)

/-- The discriminator key a polymorphic `schema-object` field reads from
raw elements: `options.type` if provided, else the literal `"type"`. -/
def SchemaObjectField.typeKey (f : SchemaObjectField) : String :=
  match f.options with
  | none => "type"
  | some o => o.type.getD "type"

/-- The discriminator key a polymorphic `schema-array` field reads from
raw elements: `options.type` if provided, else the literal `"type"`. -/
def SchemaArrayField.typeKey (f : SchemaArrayField) : String :=
  match f.options with
  | none => "type"
  | some o => o.type.getD "type"

/-- The discriminator key for a polymorphic `resource` field: its
options declare no `type` member, so the key is always the literal
`"type"`. -/
def ResourceField.typeKey (_f : ResourceField) : String := "type"

/-- The discriminator key for a polymorphic `collection` field: its
options declare no `type` member, so the key is always the literal
`"type"`. -/
def CollectionField.typeKey (_f : CollectionField) : String := "type"

/-- Modelled from the spec: the Polymorphism Resolver is not in these
sources. `resolveConcreteSchema` reads the discriminator key —
`fieldOptions.type` if provided, else the literal key `"type"` — from
the raw element and fails with `MissingPolymorphicDiscriminatorError` if
it is absent or not a registered schema. -/
def resolveConcreteSchema (registered : String → Bool) (discType : Option String)
    (rawElement : ObjectValue) : Except String String :=
  match lookupObj rawElement (discType.getD "type") with
  | some (JsonValue.prim (PrimitiveValue.str s)) =>
      if registered s then Except.ok s
      else Except.error "MissingPolymorphicDiscriminatorError"
  | _ => Except.error "MissingPolymorphicDiscriminatorError"

/-- Modelled from the spec: a raw schema-array element as seen by the
Identity Resolver — its raw cache data together with its referential
object identity (`objId` stands for the object reference itself, which
`@identity` keying compares by reference equality). -/
structure RawElement where
  objId : Nat
  value : ObjectValue

/-- The key a schema-array element resolves to, tagged by the strategy
that produced it. -/
inductive KeyValue where
  | byRef (objId : Nat)
  | byIndex (i : Nat)
  | byHash (v : Option PrimitiveValue)
  | byField (v : Option JsonValue)

/-- The configured key strategy of a `schema-array` field: `options.key`
when provided, defaulting to `@identity`. -/
def SchemaArrayField.keyStrategy (f : SchemaArrayField) : String :=
  match f.options with
  | none => "@identity"
  | some o => o.key.getD "@identity"

/-- Modelled from the spec: `computeKey` of the Identity Resolver is not
in these sources. Each strategy is authoritative and exclusive:
`@identity` keys by the raw element's referential identity, `@index` by
position, `@hash` by the contained schema-object's hash function over
the element's raw data, and any other string by the raw (untransformed)
value of the field of that name. -/
def computeKey (strategy : String) (hashFn : ObjectValue → Option PrimitiveValue)
    (elem : RawElement) (index : Nat) : KeyValue :=
  if strategy = "@identity" then KeyValue.byRef elem.objId
  else if strategy = "@index" then KeyValue.byIndex index
  else if strategy = "@hash" then KeyValue.byHash (hashFn elem.value)
  else KeyValue.byField (lookupObj elem.value strategy)

/-- The four alias-target kinds the documentation excludes. -/
def aliasExcludedKinds : List String := ["@hash", "@id", "@local", "derived"]

/-- The kinds actually admissible as alias targets: the constructors of
`AliasTarget`. -/
def aliasAdmissibleKinds : List String :=
  ["field", "object", "schema-object", "array", "schema-array",
   "resource", "collection", "attribute", "belongsTo", "hasMany"]

/-- Every field kind of the data-model table, identity kinds included. -/
def allFieldKinds : List String :=
  ["field", "alias", "@id", "@hash", "@local", "object", "schema-object",
   "array", "schema-array", "derived", "resource", "collection",
   "attribute", "belongsTo", "hasMany"]

/-- The thirteen kinds of the members of the `FieldSchema` union. -/
def fieldSchemaKinds : List String :=
  ["field", "alias", "@local", "object", "schema-object", "array",
   "schema-array", "derived", "resource", "collection", "attribute",
   "belongsTo", "hasMany"]

/-- A concrete `GenericField` used to instantiate theorems. -/
def sampleGeneric : GenericField := ⟨"title", none, none⟩

/-- A concrete `ObjectField` used to instantiate theorems. -/
def sampleObjectField : ObjectField := ⟨"meta", none, none⟩

/-- A concrete `SchemaObjectField` used to instantiate theorems. -/
def sampleSchemaObject : SchemaObjectField := ⟨"address", "$field:AddressObject", none⟩

/-- A concrete `ArrayField` used to instantiate theorems. -/
def sampleArrayField : ArrayField := ⟨"tags", none, none⟩

/-- A concrete `SchemaArrayField` used to instantiate theorems. -/
def sampleSchemaArray : SchemaArrayField := ⟨"addresses", "$field:AddressObject", none⟩

/-- A concrete `ResourceField` used to instantiate theorems. -/
def sampleResource : ResourceField := ⟨"owner", "user", none⟩

/-- A concrete `CollectionField` used to instantiate theorems. -/
def sampleCollection : CollectionField := ⟨"pets", "pet", none⟩

/-- A concrete `LegacyAttributeField` used to instantiate theorems. -/
def sampleAttribute : LegacyAttributeField := ⟨"title", none, none⟩

/-- A concrete `LegacyBelongsToField` used to instantiate theorems. -/
def sampleBelongsTo : LegacyBelongsToField := ⟨"owner", "user", ⟨true, none, none, none, none⟩⟩

/-- A concrete `LegacyHasManyField` used to instantiate theorems. -/
def sampleHasMany : LegacyHasManyField := ⟨"pets", "pet", ⟨true, none, none, none, none⟩⟩

/-- A concrete `LocalField` used to instantiate theorems. -/
def sampleLocal : LocalField := ⟨"isDestroying", none, none⟩

/-- A concrete `DerivedField` used to instantiate theorems. -/
def sampleDerived : DerivedField := ⟨"fullName", "concat", none⟩

/-- A concrete `AliasField` whose target is a plain `field`. -/
def sampleAlias : AliasField := ⟨"displayName", AliasTarget.generic sampleGeneric⟩

/-- A concrete `HashField` used to instantiate theorems. -/
def sampleHashField : HashField := ⟨none, "hashAddress", none⟩

/-- C1: `FieldSchema`, the type of the members of `fields`, has no
member of kind `@id` or `@hash` — those kinds live only in the single
nullable `identity` slot — so every `ResourceSchema` value carries at
most one identity-bearing field. -/
theorem C1_schema_has_at_most_one_identity_field (s : ResourceSchema) (f : FieldSchema) :
    FieldSchema.isIdentityBearing f = false ∧
    (FieldSchema.kindOf f == "@id") = false ∧
    (FieldSchema.kindOf f == "@hash") = false ∧
    s.identityBearingCount ≤ 1 := by
  have hall : ∀ g : FieldSchema, FieldSchema.isIdentityBearing g = false := by
    intro g; cases g <;> rfl
  refine ⟨hall f, ?_, ?_, ?_⟩
  · cases f <;> rfl
  · cases f <;> rfl
  · have hnil : s.fields.filter FieldSchema.isIdentityBearing = [] := by
      induction s.fields with
      | nil => rfl
      | cons a l ih => simp [List.filter, hall a, ih]
    unfold ResourceSchema.identityBearingCount
    rw [hnil]
    cases s.identity <;> simp

/-- C2 counterexample: the kind `alias` is a field kind outside the four
excluded kinds, yet no `AliasTarget` (the type of `AliasField.options`)
has kind `alias` — so not every kind outside the four is an admissible
alias target. -/
theorem C2_counterexample_alias_kind_not_targetable :
    allFieldKinds.contains "alias" = true ∧
    aliasExcludedKinds.contains "alias" = false ∧
    ∀ t : AliasTarget, (AliasTarget.kindOf t == "alias") = false := by
  refine ⟨by decide, by decide, ?_⟩
  intro t; cases t <;> rfl

/-- C2 amended: every alias target has one of exactly ten kinds — any
field kind except `@hash`, `@id`, `@local`, `derived`, and `alias`
itself — every one of those ten kinds is realizable as a target, and no
target has one of the four documented excluded kinds. -/
theorem C2_alias_target_kinds (t : AliasTarget) (k : String)
    (hk : k ∈ aliasAdmissibleKinds) :
    AliasTarget.kindOf t ∈ aliasAdmissibleKinds ∧
    AliasTarget.kindOf t ∉ aliasExcludedKinds ∧
    (∃ t2 : AliasTarget, AliasTarget.kindOf t2 = k) := by
  refine ⟨?_, ?_, ?_⟩
  · cases t <;> simp [AliasTarget.kindOf, aliasAdmissibleKinds]
  · cases t <;> simp [AliasTarget.kindOf, aliasExcludedKinds]
  · fin_cases hk
    · exact ⟨AliasTarget.generic sampleGeneric, rfl⟩
    · exact ⟨AliasTarget.object sampleObjectField, rfl⟩
    · exact ⟨AliasTarget.schemaObject sampleSchemaObject, rfl⟩
    · exact ⟨AliasTarget.array sampleArrayField, rfl⟩
    · exact ⟨AliasTarget.schemaArray sampleSchemaArray, rfl⟩
    · exact ⟨AliasTarget.resource sampleResource, rfl⟩
    · exact ⟨AliasTarget.collection sampleCollection, rfl⟩
    · exact ⟨AliasTarget.attribute sampleAttribute, rfl⟩
    · exact ⟨AliasTarget.belongsTo sampleBelongsTo, rfl⟩
    · exact ⟨AliasTarget.hasMany sampleHasMany, rfl⟩

/-- C2 witness: the amended theorem instantiated at the target
`AliasTarget.generic sampleGeneric` and the kind `resource`. -/
theorem C2_alias_target_kinds_witness :
    AliasTarget.kindOf (AliasTarget.generic sampleGeneric) ∈ aliasAdmissibleKinds ∧
    AliasTarget.kindOf (AliasTarget.generic sampleGeneric) ∉ aliasExcludedKinds ∧
    (∃ t2 : AliasTarget, AliasTarget.kindOf t2 = "resource") :=
  C2_alias_target_kinds (AliasTarget.generic sampleGeneric) "resource" (by decide)

/-- C3 counterexample: the claim lists `@id` and `@hash` among the kinds
of the `FieldSchema` union, but no member of the union has either kind —
`IdentityField` and `HashField` are not members of `FieldSchema`. -/
theorem C3_counterexample_no_id_kind_in_union :
    allFieldKinds.contains "@id" = true ∧
    allFieldKinds.contains "@hash" = true ∧
    ∀ f : FieldSchema,
      (FieldSchema.kindOf f == "@id") = false ∧
      (FieldSchema.kindOf f == "@hash") = false := by
  refine ⟨by decide, by decide, ?_⟩
  intro f; exact ⟨by cases f <;> rfl, by cases f <;> rfl⟩

/-- C3 amended: `FieldSchema` is a closed tagged union whose members
have exactly the thirteen kinds `field`, `alias`, `@local`, `object`,
`schema-object`, `array`, `schema-array`, `derived`, `resource`,
`collection`, `attribute`, `belongsTo`, `hasMany` (the identity kinds
`@id`/`@hash` are not members; they live in the `identity` slot), every
such kind is realized by a member, and every member carries a `name`
of type string together with its `kind` tag. -/
theorem C3_fieldschema_thirteen_kinds (f : FieldSchema) (k : String)
    (hk : k ∈ fieldSchemaKinds) :
    FieldSchema.kindOf f ∈ fieldSchemaKinds ∧
    (∃ g : FieldSchema, FieldSchema.kindOf g = k) ∧
    (∃ n : String, FieldSchema.nameOf f = n) ∧
    fieldSchemaKinds.length = 13 := by
  refine ⟨?_, ?_, ⟨FieldSchema.nameOf f, rfl⟩, by decide⟩
  · cases f <;> simp [FieldSchema.kindOf, fieldSchemaKinds]
  · fin_cases hk
    · exact ⟨FieldSchema.generic sampleGeneric, rfl⟩
    · exact ⟨FieldSchema.aliased sampleAlias, rfl⟩
    · exact ⟨FieldSchema.localField sampleLocal, rfl⟩
    · exact ⟨FieldSchema.object sampleObjectField, rfl⟩
    · exact ⟨FieldSchema.schemaObject sampleSchemaObject, rfl⟩
    · exact ⟨FieldSchema.array sampleArrayField, rfl⟩
    · exact ⟨FieldSchema.schemaArray sampleSchemaArray, rfl⟩
    · exact ⟨FieldSchema.derived sampleDerived, rfl⟩
    · exact ⟨FieldSchema.resource sampleResource, rfl⟩
    · exact ⟨FieldSchema.collection sampleCollection, rfl⟩
    · exact ⟨FieldSchema.attribute sampleAttribute, rfl⟩
    · exact ⟨FieldSchema.belongsTo sampleBelongsTo, rfl⟩
    · exact ⟨FieldSchema.hasMany sampleHasMany, rfl⟩

/-- C3 witness: the amended theorem instantiated at the member
`FieldSchema.generic sampleGeneric` and the kind `@local`. -/
theorem C3_fieldschema_thirteen_kinds_witness :
    FieldSchema.kindOf (FieldSchema.generic sampleGeneric) ∈ fieldSchemaKinds ∧
    (∃ g : FieldSchema, FieldSchema.kindOf g = "@local") ∧
    (∃ n : String, FieldSchema.nameOf (FieldSchema.generic sampleGeneric) = n) ∧
    fieldSchemaKinds.length = 13 :=
  C3_fieldschema_thirteen_kinds (FieldSchema.generic sampleGeneric) "@local" (by decide)

/-- C4: the hash computation takes only the record's raw cache data —
its result depends only on the transform looked up under the field's
mandatory `type` and on the raw data (in particular two `HashField`s
agreeing on `type` compute the same key, whatever their `name` and
`options`), the transform's contract gives it no record handle, and the
computed key is never stored back: the cache data coming out of the
hash step is exactly the cache data that went in. -/
theorem C4_hash_reads_only_raw_cache
    (t1 t2 : String → Option (ObjectValue → PrimitiveValue))
    (hf hf2 : HashField) (raw : ObjectValue)
    (hty : hf.type = hf2.type) (ht : t1 hf.type = t2 hf.type) :
    (resolveHashStep t1 hf raw).2 = raw ∧
    resolveHashKey t1 hf raw = resolveHashKey t2 hf2 raw := by
  refine ⟨rfl, ?_⟩
  unfold resolveHashKey
  rw [← hty, ht]

/-- C4 witness: the theorem instantiated at `sampleHashField`, an empty
transform registry and an empty raw record. -/
theorem C4_hash_reads_only_raw_cache_witness :
    (resolveHashStep (fun _ => none) sampleHashField []).2 = [] ∧
    resolveHashKey (fun _ => none) sampleHashField [] =
      resolveHashKey (fun _ => none) sampleHashField [] :=
  C4_hash_reads_only_raw_cache (fun _ => none) (fun _ => none)
    sampleHashField sampleHashField [] rfl rfl

/-- C5: for polymorphic `schema-object` and `schema-array` fields the
discriminator key is `options.type` when provided and the literal
`"type"` when not (options absent or `type` absent); `resource` and
`collection` options declare no `type` member, so for them the key is
always the literal `"type"`; and the Polymorphism Resolver reads exactly
that key from the raw element, with no key given defaulting to
`"type"`. -/
theorem C5_polymorphic_discriminator_key
    (f : SchemaObjectField) (o : SchemaObjectOptions)
    (f0 : SchemaObjectField) (f1 : SchemaObjectField) (o1 : SchemaObjectOptions)
    (g : SchemaArrayField) (o2 : SchemaArrayOptions) (g0 : SchemaArrayField)
    (rf : ResourceField) (cf : CollectionField)
    (k s : String) (reg : String → Bool) (raw : ObjectValue)
    (hf : f.options = some o) (ho : o.type = some k)
    (hf0 : f0.options = none)
    (hf1 : f1.options = some o1) (ho1 : o1.type = none)
    (hg : g.options = some o2) (ho2 : o2.type = some k)
    (hg0 : g0.options = none)
    (hraw : lookupObj raw "type" = some (JsonValue.prim (PrimitiveValue.str s)))
    (hreg : reg s = true) :
    f.typeKey = k ∧ f0.typeKey = "type" ∧ f1.typeKey = "type" ∧
    g.typeKey = k ∧ g0.typeKey = "type" ∧
    rf.typeKey = "type" ∧ cf.typeKey = "type" ∧
    resolveConcreteSchema reg none raw = Except.ok s ∧
    resolveConcreteSchema reg (some "type") raw =
      resolveConcreteSchema reg none raw := by
  refine ⟨?_, ?_, ?_, ?_, ?_, rfl, rfl, ?_, rfl⟩
  · simp [SchemaObjectField.typeKey, hf, ho]
  · simp [SchemaObjectField.typeKey, hf0]
  · simp [SchemaObjectField.typeKey, hf1, ho1]
  · simp [SchemaArrayField.typeKey, hg, ho2]
  · simp [SchemaArrayField.typeKey, hg0]
  · simp [resolveConcreteSchema, hraw, hreg]

/-- C5 witness: the theorem instantiated at concrete polymorphic
fields discriminating on `kind` and a raw element of type `dog`. -/
theorem C5_polymorphic_discriminator_key_witness :
    SchemaObjectField.typeKey ⟨"pet", "pet", some ⟨some true, some "kind"⟩⟩ = "kind" ∧
    SchemaObjectField.typeKey ⟨"pet", "pet", none⟩ = "type" ∧
    SchemaObjectField.typeKey ⟨"pet", "pet", some ⟨some true, none⟩⟩ = "type" ∧
    SchemaArrayField.typeKey ⟨"pets", "pet", some ⟨none, some true, some "kind"⟩⟩ = "kind" ∧
    SchemaArrayField.typeKey ⟨"pets", "pet", none⟩ = "type" ∧
    ResourceField.typeKey sampleResource = "type" ∧
    CollectionField.typeKey sampleCollection = "type" ∧
    resolveConcreteSchema (fun x => x == "dog") none
      [("type", JsonValue.prim (PrimitiveValue.str "dog"))] = Except.ok "dog" ∧
    resolveConcreteSchema (fun x => x == "dog") (some "type")
      [("type", JsonValue.prim (PrimitiveValue.str "dog"))] =
      resolveConcreteSchema (fun x => x == "dog") none
        [("type", JsonValue.prim (PrimitiveValue.str "dog"))] :=
  C5_polymorphic_discriminator_key
    ⟨"pet", "pet", some ⟨some true, some "kind"⟩⟩ ⟨some true, some "kind"⟩
    ⟨"pet", "pet", none⟩ ⟨"pet", "pet", some ⟨some true, none⟩⟩ ⟨some true, none⟩
    ⟨"pets", "pet", some ⟨none, some true, some "kind"⟩⟩ ⟨none, some true, some "kind"⟩
    ⟨"pets", "pet", none⟩ sampleResource sampleCollection
    "kind" "dog" (fun x => x == "dog")
    [("type", JsonValue.prim (PrimitiveValue.str "dog"))]
    rfl rfl rfl rfl rfl rfl rfl rfl rfl rfl

/-- C6: a `schema-array` field with `options.key` absent (options
missing, or present with no `key`) has the `@identity` strategy, under
which each element's key is the raw element's own referential identity;
each of the four strategies is authoritative and exclusive — `@identity`
keys by reference regardless of the index, `@index` keys by position
regardless of the element, `@hash` keys by the hash function's result,
and a field name keys by that raw field's value, with no fallback
between strategies. -/
theorem C6_schema_array_key_default_identity
    (f fk : SchemaArrayField) (o : SchemaArrayOptions)
    (hashFn : ObjectValue → Option PrimitiveValue)
    (e e2 : RawElement) (i j : Nat)
    (hf : f.options = none)
    (hfk : fk.options = some o) (ho : o.key = none) :
    f.keyStrategy = "@identity" ∧
    fk.keyStrategy = "@identity" ∧
    computeKey "@identity" hashFn e i = KeyValue.byRef e.objId ∧
    computeKey "@identity" hashFn e i = computeKey "@identity" hashFn e j ∧
    computeKey "@index" hashFn e i = KeyValue.byIndex i ∧
    computeKey "@index" hashFn e i = computeKey "@index" hashFn e2 i ∧
    computeKey "@hash" hashFn e i = KeyValue.byHash (hashFn e.value) ∧
    computeKey "street" hashFn e i = KeyValue.byField (lookupObj e.value "street") := by
  refine ⟨?_, ?_, rfl, rfl, ?_, ?_, ?_, ?_⟩
  · simp [SchemaArrayField.keyStrategy, hf]
  · simp [SchemaArrayField.keyStrategy, hfk, ho]
  · rfl
  · rfl
  · rfl
  · rfl

/-- C6 witness: the theorem instantiated at `sampleSchemaArray` (no
options), a keyless options value, and concrete elements. -/
theorem C6_schema_array_key_default_identity_witness :
    SchemaArrayField.keyStrategy sampleSchemaArray = "@identity" ∧
    SchemaArrayField.keyStrategy ⟨"addresses", "$field:AddressObject", some ⟨none, none, none⟩⟩ = "@identity" ∧
    computeKey "@identity" (fun _ => none) ⟨7, []⟩ 0 = KeyValue.byRef 7 ∧
    computeKey "@identity" (fun _ => none) ⟨7, []⟩ 0 = computeKey "@identity" (fun _ => none) ⟨7, []⟩ 5 ∧
    computeKey "@index" (fun _ => none) ⟨7, []⟩ 0 = KeyValue.byIndex 0 ∧
    computeKey "@index" (fun _ => none) ⟨7, []⟩ 0 = computeKey "@index" (fun _ => none) ⟨8, []⟩ 0 ∧
    computeKey "@hash" (fun _ => none) ⟨7, []⟩ 0 = KeyValue.byHash ((fun _ => none) ([] : ObjectValue)) ∧
    computeKey "street" (fun _ => none) ⟨7, []⟩ 0 = KeyValue.byField (lookupObj [] "street") :=
  C6_schema_array_key_default_identity sampleSchemaArray
    ⟨"addresses", "$field:AddressObject", some ⟨none, none, none⟩⟩ ⟨none, none, none⟩
    (fun _ => none) ⟨7, []⟩ ⟨8, []⟩ 0 5 rfl rfl rfl

/-- C7: modern `resource` and `collection` options are fully determined
by their four members `async`, `inverse`, `as`, `polymorphic` — they
carry no `resetOnRemoteUpdate` slot — while legacy `belongsTo` and
`hasMany` options are not: two legacy options values can agree on all
four shared members and still differ, precisely in
`resetOnRemoteUpdate`. -/
theorem C7_reset_on_remote_update_asymmetry
    (r1 r2 : ResourceOptions) (c1 c2 : CollectionOptions)
    (hr1 : r1.async = r2.async) (hr2 : r1.inverse = r2.inverse)
    (hr3 : r1.as = r2.as) (hr4 : r1.polymorphic = r2.polymorphic)
    (hc1 : c1.async = c2.async) (hc2 : c1.inverse = c2.inverse)
    (hc3 : c1.as = c2.as) (hc4 : c1.polymorphic = c2.polymorphic) :
    r1 = r2 ∧ c1 = c2 ∧
    (∃ b1 b2 : LegacyBelongsToOptions,
      b1.async = b2.async ∧ b1.inverse = b2.inverse ∧ b1.as = b2.as ∧
      b1.polymorphic = b2.polymorphic ∧
      b1.resetOnRemoteUpdate ≠ b2.resetOnRemoteUpdate ∧ b1 ≠ b2) ∧
    (∃ m1 m2 : LegacyHasManyOptions,
      m1.async = m2.async ∧ m1.inverse = m2.inverse ∧ m1.as = m2.as ∧
      m1.polymorphic = m2.polymorphic ∧
      m1.resetOnRemoteUpdate ≠ m2.resetOnRemoteUpdate ∧ m1 ≠ m2) := by
  refine ⟨?_, ?_, ?_, ?_⟩
  · cases r1; cases r2; simp_all
  · cases c1; cases c2; simp_all
  · exact ⟨⟨true, none, none, none, none⟩,
      ⟨true, none, none, none, some FalseLiteral.mk⟩,
      rfl, rfl, rfl, rfl, by decide, by decide⟩
  · exact ⟨⟨true, none, none, none, none⟩,
      ⟨true, none, none, none, some FalseLiteral.mk⟩,
      rfl, rfl, rfl, rfl, by decide, by decide⟩

/-- C7 witness: the theorem instantiated at concrete equal option
values of the modern kinds. -/
theorem C7_reset_on_remote_update_asymmetry_witness :
    (⟨none, none, none, none⟩ : ResourceOptions) = ⟨none, none, none, none⟩ ∧
    (⟨none, none, none, none⟩ : CollectionOptions) = ⟨none, none, none, none⟩ ∧
    (∃ b1 b2 : LegacyBelongsToOptions,
      b1.async = b2.async ∧ b1.inverse = b2.inverse ∧ b1.as = b2.as ∧
      b1.polymorphic = b2.polymorphic ∧
      b1.resetOnRemoteUpdate ≠ b2.resetOnRemoteUpdate ∧ b1 ≠ b2) ∧
    (∃ m1 m2 : LegacyHasManyOptions,
      m1.async = m2.async ∧ m1.inverse = m2.inverse ∧ m1.as = m2.as ∧
      m1.polymorphic = m2.polymorphic ∧
      m1.resetOnRemoteUpdate ≠ m2.resetOnRemoteUpdate ∧ m1 ≠ m2) :=
  C7_reset_on_remote_update_asymmetry
    ⟨none, none, none, none⟩ ⟨none, none, none, none⟩
    ⟨none, none, none, none⟩ ⟨none, none, none, none⟩
    rfl rfl rfl rfl rfl rfl rfl rfl

/-- C8: every field of kind `alias` has a null `type` — in the model the
uniform `type` view of an alias member is `none`, since `AliasField`
declares its `type` property as the TypeScript literal `null`. -/
theorem C8_alias_type_always_null (f : FieldSchema)
    (hf : FieldSchema.kindOf f = "alias") :
    FieldSchema.typeOf f = none := by
  cases f <;> simp_all [FieldSchema.kindOf, FieldSchema.typeOf]

/-- C8 witness: the theorem instantiated at the alias `sampleAlias`. -/
theorem C8_alias_type_always_null_witness :
    FieldSchema.kindOf (FieldSchema.aliased sampleAlias) = "alias" ∧
    FieldSchema.typeOf (FieldSchema.aliased sampleAlias) = none :=
  ⟨rfl, C8_alias_type_always_null (FieldSchema.aliased sampleAlias) rfl⟩

/-- C9: an alias can never target another alias — the target union
`AliasTarget` has no `alias` constructor, so the target of every
`AliasField`, re-embedded into `FieldSchema`, is never itself an alias;
alias chains therefore have depth exactly one and alias cycles are
unrepresentable. -/
theorem C9_alias_chain_depth_one (t : AliasTarget) (a : AliasField) :
    FieldSchema.isAlias (AliasTarget.toFieldSchema t) = false ∧
    FieldSchema.isAlias (AliasTarget.toFieldSchema a.options) = false ∧
    (AliasTarget.kindOf a.options == "alias") = false := by
  have h1 : ∀ u : AliasTarget, FieldSchema.isAlias (AliasTarget.toFieldSchema u) = false := by
    intro u; cases u <;> rfl
  have h2 : ∀ u : AliasTarget, (AliasTarget.kindOf u == "alias") = false := by
    intro u; cases u <;> rfl
  exact ⟨h1 t, h1 a.options, h2 a.options⟩

/-- Every optional `resetOnRemoteUpdate` slot, viewed as a boolean, is
either omitted or `false`, never `true`. -/
theorem resetSlotCases (x : Option FalseLiteral) :
    (Option.map FalseLiteral.toBool x = none ∨
     Option.map FalseLiteral.toBool x = some false) ∧
    Option.map FalseLiteral.toBool x ≠ some true := by
  cases x with
  | none => simp
  | some v => cases v; simp [FalseLiteral.toBool]

/-- C10: on legacy `belongsTo` and `hasMany` options the
`resetOnRemoteUpdate` member can only be omitted (the default
clear-local-state behavior) or carry the literal `false` (the
intelligent-commit behavior); the value `true` is unrepresentable. -/
theorem C10_reset_only_false_or_omitted
    (b : LegacyBelongsToOptions) (m : LegacyHasManyOptions) :
    (Option.map FalseLiteral.toBool b.resetOnRemoteUpdate = none ∨
     Option.map FalseLiteral.toBool b.resetOnRemoteUpdate = some false) ∧
    Option.map FalseLiteral.toBool b.resetOnRemoteUpdate ≠ some true ∧
    (Option.map FalseLiteral.toBool m.resetOnRemoteUpdate = none ∨
     Option.map FalseLiteral.toBool m.resetOnRemoteUpdate = some false) ∧
    Option.map FalseLiteral.toBool m.resetOnRemoteUpdate ≠ some true := by
  obtain ⟨hb1, hb2⟩ := resetSlotCases b.resetOnRemoteUpdate
  obtain ⟨hm1, hm2⟩ := resetSlotCases m.resetOnRemoteUpdate
  exact ⟨hb1, hb2, hm1, hm2⟩
